import Mathlib

set_option maxHeartbeats 1000000

/- Shallow embedding of the CAAD repository: src/caad/spark_utils.py and
   src/caad/spark_queries.py.  PySpark Column expressions become an AST,
   WindowSpec becomes a record of partition column, order column and the two
   integer range bounds (Window.currentRow = 0), and Python ValueError raising
   becomes an Except error value.  The two ValueError cases are tagged
   following the error taxonomy of the design (InvalidArgument for a negative
   window length or a bad aggregation strategy, UnsupportedUnit for a unit of
   time outside the fixed set); the TypeError the interpreter raises on a
   call with an undeclared keyword argument is a third error case. -/

namespace CAAD

/-- Errors raised by the repository code, each carrying its message string.
`invalidArgument` and `unsupportedUnit` are the two ValueError cases, tagged
per the taxonomy; `typeError` is the TypeError the interpreter raises when a
call passes a keyword argument the callee does not declare. -/
inductive Err : Type where
  | invalidArgument : String → Err
  | unsupportedUnit : String → Err
  | typeError : String → Err

mutual

inductive Expr : Type where
  | col : String → Expr
  | castLong : Expr → Expr
  | mean : Expr → Expr
  | last : Expr → Expr
  | first : Expr → Expr
  | percentile_approx : Expr → Expr
  | over : Expr → WindowSpec → Expr
  | sub : Expr → Expr → Expr
  | div : Expr → Expr → Expr

inductive ColSpec : Type where
  | name : String → ColSpec
  | names : List String → ColSpec
  | column : Expr → ColSpec

inductive WindowSpec : Type where
  | mk : ColSpec → ColSpec → Int → Int → WindowSpec

end

/-- A parameter typed `str | Column` in the Python source. -/
inductive ColArg : Type where
  | name : String → ColArg
  | column : Expr → ColArg

/-- The `if isinstance(x, str): x = f.col(x)` normalization. -/
def ColArg.toExpr : ColArg → Expr
  | ColArg.name s => Expr.col s
  | ColArg.column e => e

namespace TemporalWindow

/-- The class attribute `TemporalWindow.resolution`, a dict in insertion
order; `.get(unit, None)` becomes `List.lookup`. -/
def resolution : List (String × Int) :=
  [("days", 86400), ("hours", 3600), ("weeks", 604800), ("minutes", 60)]

def negMsg : String := "Window size must not be negative."

def unitMsg : String :=
  "Unit of time must be one of: [days, hours, weeks, minutes]"

/-- `TemporalWindow.convert_window_length_to_seconds`. -/
def convert_window_length_to_seconds (window_length : Int) (unit_of_time : String) :
    Except Err Int :=
  if window_length < 0 then
    Except.error (Err.invalidArgument negMsg)
  else
    match List.lookup unit_of_time resolution with
    | none => Except.error (Err.unsupportedUnit unitMsg)
    | some multiplier => Except.ok (multiplier * window_length)

/-- `TemporalWindow.create_lookback_window`; `Window.currentRow` is 0. -/
def create_lookback_window (window_length : Int) (unit_of_time : String)
    (order_col : ColSpec) (partition_col : ColSpec) (include_current : Bool)
    (offset : Int) : Except Err WindowSpec :=
  match convert_window_length_to_seconds window_length unit_of_time with
  | Except.error e => Except.error e
  | Except.ok lookback_window_length =>
    match convert_window_length_to_seconds offset unit_of_time with
    | Except.error e => Except.error e
    | Except.ok rescaled_offset =>
      Except.ok (WindowSpec.mk partition_col order_col
        (-(lookback_window_length + rescaled_offset))
        (if include_current then 0 - rescaled_offset
         else 0 - 1 - rescaled_offset))

/-- `TemporalWindow.create_lookahead_window`; `Window.currentRow` is 0. -/
def create_lookahead_window (window_length : Int) (unit_of_time : String)
    (order_col : ColSpec) (partition_col : ColSpec) (include_current : Bool)
    (offset : Int) : Except Err WindowSpec :=
  match convert_window_length_to_seconds window_length unit_of_time with
  | Except.error e => Except.error e
  | Except.ok lookahead_window_length =>
    match convert_window_length_to_seconds offset unit_of_time with
    | Except.error e => Except.error e
    | Except.ok rescaled_offset =>
      Except.ok (WindowSpec.mk partition_col order_col
        (if include_current then 0 + rescaled_offset
         else 0 + 1 + rescaled_offset)
        (lookahead_window_length + rescaled_offset))

end TemporalWindow

/-- The local `aggregation_strategies` dict of `lagged_delta`, in insertion
order; the engine reductions become AST constructors. -/
def aggregation_strategies (col : Expr) : List (String × Expr) :=
  [("mean", Expr.mean col), ("last", Expr.last col),
   ("first", Expr.first col), ("median", Expr.percentile_approx col)]

def aggMsg : String :=
  "Invalid aggregation strategy; may only be one of: [mean, last, first, median]."

/-- The TypeError message for the bad keyword in the window call of
`lagged_delta`. -/
def keywordMsg : String :=
  "create_lookback_window got an unexpected keyword argument timestamp_col"

set_option linter.unusedVariables false in
/-- `lagged_delta` from src/caad/spark_queries.py.  The str-to-Column
normalization of the three column arguments runs first and is pure; the
strategy lookup and its ValueError follow.  After a successful lookup the
source calls `tw.create_lookback_window` with the keyword `timestamp_col`
(spark_queries.py line 51), but the parameters of `create_lookback_window`
(spark_utils.py lines 28 to 34) are `window_length, unit_of_time, order_col,
partition_col, include_current, offset`, with no var-keyword parameter, so
Python raises TypeError at argument binding, before the builder body (and
its length, offset and unit validation) ever runs.  The function can
therefore never return a delta expression on a valid strategy.  The
parameter list keeps every parameter of the source even though, because of
the TypeError, most of them no longer influence the result. -/
def lagged_delta (minuend_col subtrahend_col timestamp_col : ColArg)
    (partition_col : ColSpec) (window_length offset : Int)
    (unit_of_time subtrahend_aggregation : String) : Except Err Expr :=
  let subtrahend := ColArg.toExpr subtrahend_col
  match List.lookup subtrahend_aggregation (aggregation_strategies subtrahend) with
  | none => Except.error (Err.invalidArgument aggMsg)
  | some _ => Except.error (Err.typeError keywordMsg)

/-- `rate_of_change` from src/caad/spark_queries.py.  The denominator call
passes the literal strategy string of the source, `"latest"`. -/
def rate_of_change (col_name timestamp_col : ColArg) (partition_col : ColSpec)
    (window_length offset : Int) (unit_of_time subtrahend_aggregation : String) :
    Except Err Expr :=
  let ts := ColArg.toExpr timestamp_col
  match lagged_delta col_name col_name (ColArg.column ts) partition_col
      window_length offset unit_of_time subtrahend_aggregation with
  | Except.error e => Except.error e
  | Except.ok numerator =>
    match lagged_delta (ColArg.column (Expr.castLong ts))
        (ColArg.column (Expr.castLong ts)) (ColArg.column ts) partition_col
        window_length offset unit_of_time "latest" with
    | Except.error e => Except.error e
    | Except.ok denominator => Except.ok (Expr.div numerator denominator)

/-- Modelled from the spec: `combinedWindow` is described in section 4.1 of
the design but its implementation is not among the files under src/; per the
spec it generalizes both windows, with start bound
`-(secondsFor(lookbackLength,unit)+secondsFor(lookbackOffset,unit))` adjusted
`+1` when `includeStart` is false, and end bound
`secondsFor(lookaheadLength,unit)+secondsFor(lookaheadOffset,unit)` adjusted
`-1` when `includeEnd` is false. -/
def combinedWindow (lookbackLength lookaheadLength lookbackOffset lookaheadOffset : Int)
    (unit : String) (orderKey partitionKey : ColSpec) (includeStart includeEnd : Bool) :
    Except Err WindowSpec :=
  match TemporalWindow.convert_window_length_to_seconds lookbackLength unit with
  | Except.error e => Except.error e
  | Except.ok lb =>
    match TemporalWindow.convert_window_length_to_seconds lookbackOffset unit with
    | Except.error e => Except.error e
    | Except.ok lbo =>
      match TemporalWindow.convert_window_length_to_seconds lookaheadLength unit with
      | Except.error e => Except.error e
      | Except.ok la =>
        match TemporalWindow.convert_window_length_to_seconds lookaheadOffset unit with
        | Except.error e => Except.error e
        | Except.ok lao =>
          Except.ok (WindowSpec.mk partitionKey orderKey
            (-(lb + lbo) + (if includeStart then 0 else 1))
            (la + lao - (if includeEnd then 0 else 1)))

/- Helper lemmas shared by the claim theorems. -/

open TemporalWindow

theorem convert_ok (len mult : Int) (u : String) (hlen : 0 ≤ len)
    (hm : List.lookup u resolution = some mult) :
    convert_window_length_to_seconds len u = Except.ok (mult * len) := by
  have h1 : ¬ len < 0 := not_lt.mpr hlen
  simp [convert_window_length_to_seconds, h1, hm]

theorem convert_neg (len : Int) (u : String) (hlen : len < 0) :
    convert_window_length_to_seconds len u = Except.error (Err.invalidArgument negMsg) := by
  simp [convert_window_length_to_seconds, hlen]

theorem lookup_resolution_none (u : String)
    (hu : u ∉ ["days", "hours", "weeks", "minutes"]) :
    List.lookup u resolution = none := by
  simp only [List.mem_cons, List.not_mem_nil, or_false, not_or] at hu
  obtain ⟨h1, h2, h3, h4⟩ := hu
  simp [resolution, List.lookup, beq_eq_false_iff_ne.mpr h1,
    beq_eq_false_iff_ne.mpr h2, beq_eq_false_iff_ne.mpr h3,
    beq_eq_false_iff_ne.mpr h4]

theorem convert_bad_unit (len : Int) (u : String) (hlen : 0 ≤ len)
    (hu : List.lookup u resolution = none) :
    convert_window_length_to_seconds len u = Except.error (Err.unsupportedUnit unitMsg) := by
  have h1 : ¬ len < 0 := not_lt.mpr hlen
  simp [convert_window_length_to_seconds, h1, hu]

theorem lookback_ok (len off mult : Int) (u : String) (ord p : ColSpec) (inc : Bool)
    (hlen : 0 ≤ len) (hoff : 0 ≤ off) (hm : List.lookup u resolution = some mult) :
    create_lookback_window len u ord p inc off =
      Except.ok (WindowSpec.mk p ord (-(mult * len + mult * off))
        (if inc then 0 - mult * off else 0 - 1 - mult * off)) := by
  simp [create_lookback_window, convert_ok len mult u hlen hm,
    convert_ok off mult u hoff hm]

theorem lookahead_ok (len off mult : Int) (u : String) (ord p : ColSpec) (inc : Bool)
    (hlen : 0 ≤ len) (hoff : 0 ≤ off) (hm : List.lookup u resolution = some mult) :
    create_lookahead_window len u ord p inc off =
      Except.ok (WindowSpec.mk p ord
        (if inc then 0 + mult * off else 0 + 1 + mult * off)
        (mult * len + mult * off)) := by
  simp [create_lookahead_window, convert_ok len mult u hlen hm,
    convert_ok off mult u hoff hm]

theorem combined_ok (lb la lbo lao mult : Int) (u : String) (ord p : ColSpec)
    (incS incE : Bool) (h1 : 0 ≤ lb) (h2 : 0 ≤ la) (h3 : 0 ≤ lbo) (h4 : 0 ≤ lao)
    (hm : List.lookup u resolution = some mult) :
    combinedWindow lb la lbo lao u ord p incS incE =
      Except.ok (WindowSpec.mk p ord
        (-(mult * lb + mult * lbo) + (if incS then 0 else 1))
        (mult * la + mult * lao - (if incE then 0 else 1))) := by
  simp [combinedWindow, convert_ok lb mult u h1 hm, convert_ok lbo mult u h3 hm,
    convert_ok la mult u h2 hm, convert_ok lao mult u h4 hm]

theorem lookup_agg_none (e : Expr) (strat : String)
    (h : strat ∉ ["mean", "last", "first", "median"]) :
    List.lookup strat (aggregation_strategies e) = none := by
  simp only [List.mem_cons, List.not_mem_nil, or_false, not_or] at h
  obtain ⟨h1, h2, h3, h4⟩ := h
  simp [aggregation_strategies, List.lookup, beq_eq_false_iff_ne.mpr h1,
    beq_eq_false_iff_ne.mpr h2, beq_eq_false_iff_ne.mpr h3,
    beq_eq_false_iff_ne.mpr h4]

theorem lagged_delta_latest (a b c : ColArg) (p : ColSpec) (len off : Int)
    (u : String) :
    lagged_delta a b c p len off u "latest" =
      Except.error (Err.invalidArgument aggMsg) := rfl

/- Claim theorems. -/

/-- C3: for every non-negative length and valid unit,
`convert_window_length_to_seconds` returns the length multiplied by the fixed
per-unit second count, the table maps minutes to 60, hours to 3600, days to
86400 and weeks to 604800, and a zero length yields zero seconds for every
valid unit. -/
theorem convert_window_length_spec :
    (∀ (len mult : Int) (u : String), 0 ≤ len →
      List.lookup u resolution = some mult →
      convert_window_length_to_seconds len u = Except.ok (mult * len)) ∧
    List.lookup "minutes" resolution = some 60 ∧
    List.lookup "hours" resolution = some 3600 ∧
    List.lookup "days" resolution = some 86400 ∧
    List.lookup "weeks" resolution = some 604800 ∧
    (∀ (mult : Int) (u : String), List.lookup u resolution = some mult →
      convert_window_length_to_seconds 0 u = Except.ok 0) := by
  refine ⟨fun len mult u hlen hm => convert_ok len mult u hlen hm, rfl, rfl, rfl, rfl,
    fun mult u hm => ?_⟩
  have h := convert_ok 0 mult u le_rfl hm
  simpa using h

/-- Witness for C3 at length 5, unit minutes. -/
theorem convert_window_length_spec_witness :
    convert_window_length_to_seconds 5 "minutes" = Except.ok 300 := by
  have h := convert_window_length_spec.1 5 60 "minutes" (by decide) rfl
  simpa using h

/-- C7: for every negative length and every unit string, recognized or not,
`convert_window_length_to_seconds` fails with the InvalidArgument error and
never computes a seconds value. -/
theorem convert_rejects_negative (len : Int) (u : String) (h : len < 0) :
    convert_window_length_to_seconds len u =
      Except.error (Err.invalidArgument negMsg) :=
  convert_neg len u h

/-- Witness for C7 at length -1 with an unrecognized unit. -/
theorem convert_rejects_negative_witness :
    (-1 : Int) < 0 ∧
    convert_window_length_to_seconds (-1) "fortnights" =
      Except.error (Err.invalidArgument negMsg) :=
  ⟨by decide, convert_rejects_negative (-1) "fortnights" (by decide)⟩

/-- C8: for every non-negative length and every unit outside
{days, hours, weeks, minutes}, `convert_window_length_to_seconds` fails with
the UnsupportedUnit error, whose message lists the four valid units. -/
theorem convert_rejects_unknown_unit (len : Int) (u : String) (hlen : 0 ≤ len)
    (hu : u ∉ ["days", "hours", "weeks", "minutes"]) :
    convert_window_length_to_seconds len u =
      Except.error (Err.unsupportedUnit unitMsg) ∧
    unitMsg = "Unit of time must be one of: [" ++ "days" ++ ", " ++ "hours" ++
      ", " ++ "weeks" ++ ", " ++ "minutes" ++ "]" := by
  refine ⟨convert_bad_unit len u hlen (lookup_resolution_none u hu), rfl⟩

/-- Witness for C8 at length 5, unit fortnights. -/
theorem convert_rejects_unknown_unit_witness :
    (0 : Int) ≤ 5 ∧
    convert_window_length_to_seconds 5 "fortnights" =
      Except.error (Err.unsupportedUnit unitMsg) :=
  ⟨by decide,
    (convert_rejects_unknown_unit 5 "fortnights" (by decide) (by decide)).1⟩

/-- C4: for every non-negative length and offset and recognized unit,
`create_lookback_window` yields a WindowSpec with start bound
-(seconds(length) + seconds(offset)) and end bound -seconds(offset) when the
current row is included, and -1 - seconds(offset) otherwise; in particular
7 days with offset 0 and the current row included gives start -604800 and
end 0, and 7 days with offset 1 and the current row excluded gives start
-691200 and end -86401. -/
theorem create_lookback_window_bounds (len off mult : Int) (u : String)
    (ord p : ColSpec) (inc : Bool) (hlen : 0 ≤ len) (hoff : 0 ≤ off)
    (hm : List.lookup u resolution = some mult) :
    (create_lookback_window len u ord p inc off =
      Except.ok (WindowSpec.mk p ord (-(mult * len + mult * off))
        (if inc then -(mult * off) else -1 - mult * off))) ∧
    create_lookback_window 7 "days" ord p true 0 =
      Except.ok (WindowSpec.mk p ord (-604800) 0) ∧
    create_lookback_window 7 "days" ord p false 1 =
      Except.ok (WindowSpec.mk p ord (-691200) (-86401)) := by
  refine ⟨?_, ?_, ?_⟩
  · rw [lookback_ok len off mult u ord p inc hlen hoff hm]
    cases inc <;> simp
  · rw [lookback_ok 7 0 86400 "days" ord p true (by decide) (by decide) rfl]
    norm_num
  · rw [lookback_ok 7 1 86400 "days" ord p false (by decide) (by decide) rfl]
    norm_num

/-- Witness for C4: 7 days, offset 0, current row included. -/
theorem create_lookback_window_bounds_witness :
    (0 : Int) ≤ 7 ∧ (0 : Int) ≤ 0 ∧
    create_lookback_window 7 "days" (ColSpec.name "ts") (ColSpec.name "id")
      true 0 =
      Except.ok (WindowSpec.mk (ColSpec.name "id") (ColSpec.name "ts")
        (-604800) 0) :=
  ⟨by decide, by decide,
    (create_lookback_window_bounds 7 0 86400 "days" (ColSpec.name "ts")
      (ColSpec.name "id") true (by decide) (by decide) rfl).2.1⟩

/-- C5: for every non-negative length and offset and recognized unit,
`create_lookahead_window` yields a WindowSpec with start bound
seconds(offset) + 1 when the current row is excluded (the default) and
seconds(offset) when it is included, and end bound
seconds(length) + seconds(offset); in particular 3 hours with offset 0 and
the current row excluded gives start 1 and end 10800. -/
theorem create_lookahead_window_bounds (len off mult : Int) (u : String)
    (ord p : ColSpec) (inc : Bool) (hlen : 0 ≤ len) (hoff : 0 ≤ off)
    (hm : List.lookup u resolution = some mult) :
    (create_lookahead_window len u ord p inc off =
      Except.ok (WindowSpec.mk p ord
        (if inc then mult * off else mult * off + 1)
        (mult * len + mult * off))) ∧
    create_lookahead_window 3 "hours" ord p false 0 =
      Except.ok (WindowSpec.mk p ord 1 10800) := by
  refine ⟨?_, ?_⟩
  · rw [lookahead_ok len off mult u ord p inc hlen hoff hm]
    cases inc
    · simp
      ring_nf
    · simp
  · rw [lookahead_ok 3 0 3600 "hours" ord p false (by decide) (by decide) rfl]
    norm_num

/-- Witness for C5: 3 hours, offset 0, current row excluded. -/
theorem create_lookahead_window_bounds_witness :
    (0 : Int) ≤ 3 ∧ (0 : Int) ≤ 0 ∧
    create_lookahead_window 3 "hours" (ColSpec.name "ts") (ColSpec.name "id")
      false 0 =
      Except.ok (WindowSpec.mk (ColSpec.name "id") (ColSpec.name "ts") 1 10800) :=
  ⟨by decide, by decide,
    (create_lookahead_window_bounds 3 0 3600 "hours" (ColSpec.name "ts")
      (ColSpec.name "id") false (by decide) (by decide) rfl).2⟩

/-- C1 fails on the code: after the strategy lookup succeeds, `lagged_delta`
calls `create_lookback_window` with the nonexistent keyword `timestamp_col`
(spark_queries.py line 51 against spark_utils.py lines 28 to 34), so Python
raises TypeError on every valid-strategy call; no window is built and no
delta expression is ever returned.  Shown at the concrete input (x, x, ts,
id, 7 days, offset 0, mean) and, for every strategy among the four valid
ones, at arbitrary arguments. -/
theorem lagged_delta_keyword_type_error :
    lagged_delta (ColArg.name "x") (ColArg.name "x") (ColArg.name "ts")
      (ColSpec.name "id") 7 0 "days" "mean" =
      Except.error (Err.typeError keywordMsg) ∧
    ∀ (m s t : ColArg) (p : ColSpec) (len off : Int) (u strat : String),
      strat ∈ ["mean", "last", "first", "median"] →
      lagged_delta m s t p len off u strat =
        Except.error (Err.typeError keywordMsg) := by
  refine ⟨rfl, fun m s t p len off u strat hstrat => ?_⟩
  simp only [List.mem_cons, List.not_mem_nil, or_false] at hstrat
  rcases hstrat with rfl | rfl | rfl | rfl <;>
    simp [lagged_delta, aggregation_strategies, List.lookup]

/-- Witness for C1 at the strategy last with arbitrary-looking arguments. -/
theorem lagged_delta_keyword_type_error_witness :
    "last" ∈ ["mean", "last", "first", "median"] ∧
    lagged_delta (ColArg.name "a") (ColArg.name "b") (ColArg.name "ts")
      (ColSpec.name "id") 3 1 "hours" "last" =
      Except.error (Err.typeError keywordMsg) :=
  ⟨by decide,
    lagged_delta_keyword_type_error.2 (ColArg.name "a") (ColArg.name "b")
      (ColArg.name "ts") (ColSpec.name "id") 3 1 "hours" "last" (by decide)⟩

/-- C6: for every strategy string outside mean, last, first and median,
`lagged_delta` fails with the InvalidArgument error whatever the remaining
arguments are (so before any window validation or construction happens), and
the error message enumerates the four valid strategies. -/
theorem lagged_delta_rejects_unknown_strategy (m s t : ColArg) (p : ColSpec)
    (len off : Int) (u strat : String)
    (h : strat ∉ ["mean", "last", "first", "median"]) :
    lagged_delta m s t p len off u strat =
      Except.error (Err.invalidArgument aggMsg) ∧
    aggMsg = "Invalid aggregation strategy; may only be one of: [" ++ "mean" ++
      ", " ++ "last" ++ ", " ++ "first" ++ ", " ++ "median" ++ "]." := by
  refine ⟨?_, rfl⟩
  simp [lagged_delta, lookup_agg_none (ColArg.toExpr s) strat h]

/-- Witness for C6 at the strategy string nonsense, with a negative length
and a bad unit, showing the strategy error wins before window validation. -/
theorem lagged_delta_rejects_unknown_strategy_witness :
    "nonsense" ∉ ["mean", "last", "first", "median"] ∧
    lagged_delta (ColArg.name "x") (ColArg.name "x") (ColArg.name "ts")
      (ColSpec.name "id") (-5) (-5) "fortnights" "nonsense" =
      Except.error (Err.invalidArgument aggMsg) :=
  ⟨by decide,
    (lagged_delta_rejects_unknown_strategy (ColArg.name "x") (ColArg.name "x")
      (ColArg.name "ts") (ColSpec.name "id") (-5) (-5) "fortnights" "nonsense"
      (by decide)).1⟩

/-- C2 fails on the code: on fully valid arguments (shown here at column
value, timestamp ts, partition id, 7 days, offset 0, strategy mean) the
numerator call of `rate_of_change` already raises TypeError from the
`timestamp_col` keyword mismatch inside `lagged_delta`, so the ratio
expression is never built and the denominator, whose strategy string latest
is itself absent from the strategy table of `lagged_delta`, is never even
reached; and every call of `rate_of_change` whatsoever returns an error,
never the ratio expression. -/
theorem rate_of_change_always_errors :
    rate_of_change (ColArg.name "value") (ColArg.name "ts") (ColSpec.name "id")
      7 0 "days" "mean" = Except.error (Err.typeError keywordMsg) ∧
    ∀ (c t : ColArg) (p : ColSpec) (len off : Int) (u strat : String),
      ∃ e, rate_of_change c t p len off u strat = Except.error e := by
  refine ⟨rfl, fun c t p len off u strat => ?_⟩
  cases h : lagged_delta c c (ColArg.column (ColArg.toExpr t)) p len off u strat with
  | error e => exact ⟨e, by simp [rate_of_change, h]⟩
  | ok n =>
    exact ⟨Err.invalidArgument aggMsg,
      by simp [rate_of_change, h, lagged_delta_latest]⟩

/-- C9: the combined window (modelled from the spec, absent from src)
subsumes both source window builders when the opposite length and both
offsets are zero: it reproduces the lookback bounds with includeEnd as the
lookback inclusivity flag, the lookahead bounds with includeStart as the
lookahead inclusivity flag, and at 7 days it matches
`create_lookback_window 7 days` with the current row included, whose bounds
are start -604800 and end 0. -/
theorem combinedWindow_subsumes (len mult : Int) (u : String) (ord p : ColSpec)
    (inc : Bool) (hlen : 0 ≤ len) (hm : List.lookup u resolution = some mult) :
    combinedWindow len 0 0 0 u ord p true inc =
      create_lookback_window len u ord p inc 0 ∧
    combinedWindow 0 len 0 0 u ord p inc true =
      create_lookahead_window len u ord p inc 0 ∧
    combinedWindow 7 0 0 0 "days" ord p true true =
      create_lookback_window 7 "days" ord p true 0 ∧
    create_lookback_window 7 "days" ord p true 0 =
      Except.ok (WindowSpec.mk p ord (-604800) 0) := by
  refine ⟨?_, ?_, ?_, ?_⟩
  · rw [combined_ok len 0 0 0 mult u ord p true inc hlen le_rfl le_rfl le_rfl hm,
      lookback_ok len 0 mult u ord p inc hlen le_rfl hm]
    cases inc <;> simp
  · rw [combined_ok 0 len 0 0 mult u ord p inc true le_rfl hlen le_rfl le_rfl hm,
      lookahead_ok len 0 mult u ord p inc hlen le_rfl hm]
    cases inc <;> simp
  · rw [combined_ok 7 0 0 0 86400 "days" ord p true true (by decide) le_rfl
      le_rfl le_rfl rfl,
      lookback_ok 7 0 86400 "days" ord p true (by decide) le_rfl rfl]
    norm_num
  · rw [lookback_ok 7 0 86400 "days" ord p true (by decide) le_rfl rfl]
    norm_num

/-- Witness for C9 at 7 days with concrete order and partition columns. -/
theorem combinedWindow_subsumes_witness :
    (0 : Int) ≤ 7 ∧
    combinedWindow 7 0 0 0 "days" (ColSpec.name "ts") (ColSpec.name "id")
      true true =
      create_lookback_window 7 "days" (ColSpec.name "ts") (ColSpec.name "id")
        true 0 ∧
    create_lookback_window 7 "days" (ColSpec.name "ts") (ColSpec.name "id")
      true 0 =
      Except.ok (WindowSpec.mk (ColSpec.name "id") (ColSpec.name "ts")
        (-604800) 0) :=
  ⟨by decide,
    (combinedWindow_subsumes 7 86400 "days" (ColSpec.name "ts")
      (ColSpec.name "id") true (by decide) rfl).2.2.1,
    (combinedWindow_subsumes 7 86400 "days" (ColSpec.name "ts")
      (ColSpec.name "id") true (by decide) rfl).2.2.2⟩

/-- C10: for every negative offset, both window builders fail whatever the
length and unit are (no window is ever returned), and whenever the unit is
recognized the failure is exactly the InvalidArgument error of the shared
negative-length validation in `convert_window_length_to_seconds`. -/
theorem negative_offset_rejected (len off : Int) (u : String) (ord p : ColSpec)
    (inc : Bool) (hoff : off < 0) :
    (∃ e, create_lookback_window len u ord p inc off = Except.error e) ∧
    (∃ e, create_lookahead_window len u ord p inc off = Except.error e) ∧
    (∀ mult, List.lookup u resolution = some mult →
      create_lookback_window len u ord p inc off =
        Except.error (Err.invalidArgument negMsg) ∧
      create_lookahead_window len u ord p inc off =
        Except.error (Err.invalidArgument negMsg)) := by
  have hconv := convert_neg off u hoff
  refine ⟨?_, ?_, fun mult hm => ?_⟩
  · cases h : convert_window_length_to_seconds len u with
    | error e => exact ⟨e, by simp [create_lookback_window, h]⟩
    | ok v =>
      exact ⟨Err.invalidArgument negMsg, by simp [create_lookback_window, h, hconv]⟩
  · cases h : convert_window_length_to_seconds len u with
    | error e => exact ⟨e, by simp [create_lookahead_window, h]⟩
    | ok v =>
      exact ⟨Err.invalidArgument negMsg, by simp [create_lookahead_window, h, hconv]⟩
  · by_cases hlen : len < 0
    · have h := convert_neg len u hlen
      exact ⟨by simp [create_lookback_window, h],
        by simp [create_lookahead_window, h]⟩
    · have h := convert_ok len mult u (not_lt.mp hlen) hm
      exact ⟨by simp [create_lookback_window, h, hconv],
        by simp [create_lookahead_window, h, hconv]⟩

/-- Witness for C10 at 7 days with offset -1. -/
theorem negative_offset_rejected_witness :
    (-1 : Int) < 0 ∧
    ((∃ e, create_lookback_window 7 "days" (ColSpec.name "ts")
        (ColSpec.name "id") true (-1) = Except.error e) ∧
     (∃ e, create_lookahead_window 7 "days" (ColSpec.name "ts")
        (ColSpec.name "id") true (-1) = Except.error e) ∧
     (∀ mult, List.lookup "days" resolution = some mult →
        create_lookback_window 7 "days" (ColSpec.name "ts") (ColSpec.name "id")
          true (-1) = Except.error (Err.invalidArgument negMsg) ∧
        create_lookahead_window 7 "days" (ColSpec.name "ts") (ColSpec.name "id")
          true (-1) = Except.error (Err.invalidArgument negMsg))) :=
  ⟨by decide,
    negative_offset_rejected 7 (-1) "days" (ColSpec.name "ts")
      (ColSpec.name "id") true (by decide)⟩

end CAAD
